import Mathlib

/-!
Verification of the SonicCanvas audio visualizer.

This file gives a shallow embedding of the rendering, capture and analysis
logic of the repository: `getBandEnergy` and the three draw variants from
`src/components/Visualizer.tsx`, the animation-frame lifecycle effect of the
same component, the `startRecording` / `stopRecording` pair and `analyzeAudio`
from the application and service modules.  JS numbers are modelled as
rationals; the single non-finite value these computations can produce is NaN
(from `0/0`), modelled by `none` in `Option ℚ`.
-/

namespace SonicCanvas

/-- A JS number that may be NaN: `none` is NaN, `some q` a finite value.
None of the modelled expressions can produce an infinity (every division
with a possibly-zero denominator has a zero numerator in that case), so
`Option ℚ` is an exact model of the values that occur. -/
abbrev JSNum := Option ℚ

/-- JS addition; NaN is absorbing. -/
def jsAdd : JSNum → JSNum → JSNum
  | some a, some b => some (a + b)
  | _, _ => none

/-- JS multiplication; NaN is absorbing (no infinities occur, so `NaN * 0`
is the only degenerate case and it is NaN, as in JS). -/
def jsMul : JSNum → JSNum → JSNum
  | some a, some b => some (a * b)
  | _, _ => none

/-- JS comparison `c < x`: any comparison with NaN is false. -/
def jsGT (x : JSNum) (c : ℚ) : Bool :=
  match x with
  | none => false
  | some q => decide (c < q)

/-- Enum `VisualType` from `src/unnamed/part_000` (types module). -/
inductive VisualType
  | bars
  | drums
  | vocals
  deriving DecidableEq

/-- Structure `VisualizerConfig` from the types module. -/
structure VisualizerConfig where
  type : VisualType
  sensitivity : ℚ
  smoothing : ℚ
  barWidth : ℚ
  colorPalette : List String
  glowStrength : ℚ
  deriving DecidableEq

/-- The initial configuration committed by the app (`App.tsx`, `useState`). -/
def defaultConfig : VisualizerConfig :=
  { type := VisualType.bars
    sensitivity := 1.2
    smoothing := 0.85
    barWidth := 4
    colorPalette := ["#3b82f6", "#8b5cf6", "#ec4899"]
    glowStrength := 15 }

/-! ## Band energy aggregator (Visualizer.tsx lines 66-71) -/

/-- The loop `for (let i = start; i < actualEnd; i++) sum += dataArray[i]`,
written as a sum of `len = actualEnd - start` terms (ℕ subtraction gives zero
iterations when `actualEnd ≤ start`, exactly as the JS loop does). -/
def bandSum (data : List ℕ) (start len : ℕ) : ℕ :=
  ((List.range len).map (fun k => data.getD (start + k) 0)).sum

/-- Helper `getBandEnergy(start, end)` from the DRUMS case of `draw`:
clamp `end` to the buffer length, sum the bins, divide by the range width and
then by 255.  When `actualEnd = start` the JS result is `0 / 0 = NaN`
(`none`); when `actualEnd < start` the loop body never runs and the JS result
is `0 / negative = -0`, i.e. the rational `0`, which the `else` branch yields
because the numerator is `0`. -/
def getBandEnergy (data : List ℕ) (start e : ℕ) : JSNum :=
  let actualEnd := min e data.length
  if actualEnd = start then none
  else some ((bandSum data start (actualEnd - start) : ℚ) /
    ((actualEnd : ℚ) - (start : ℚ)) / 255)

/-! ## Pre-frame gradient construction (Visualizer.tsx lines 37-39) -/

/-- Offset passed to `gradient.addColorStop(i / (colors.length - 1), color)`.
With a single color the only offset is `0 / 0 = NaN`.  (For `len = 0` the
`forEach` never runs, so the value is irrelevant.) -/
def stopOffset (len i : ℕ) : JSNum :=
  if len = 1 then none else some ((i : ℚ) / ((len : ℚ) - 1))

/-- The list of color-stop offsets produced by the `forEach` over the
configured palette. -/
def gradientStops (colors : List String) : List JSNum :=
  (List.range colors.length).map (stopOffset colors.length)

/-- Per the canvas specification, `addColorStop` throws an IndexSizeError
when the offset is NaN or lies outside `[0, 1]`. -/
def addColorStopThrows (o : JSNum) : Bool :=
  match o with
  | none => true
  | some q => decide (q < 0 ∨ 1 < q)

/-- Whether building the linear gradient for the given palette throws. -/
def gradientConstructionThrows (colors : List String) : Bool :=
  (gradientStops colors).any addColorStopThrows

/-! ## BARS variant (Visualizer.tsx lines 47-63) -/

/-- A rectangle passed to `ctx.fillRect` (x, y, width, height). -/
structure Rect where
  x : ℚ
  y : ℚ
  w : ℚ
  h : ℚ
  deriving DecidableEq

/-- Loop bound `totalBars = Math.min(bufferLength / 2, 64)`; JS `/` is exact division,
so this is a rational, not an integer. -/
def totalBars (N : ℕ) : ℚ := min ((N : ℚ) / 2) 64

/-- The indices visited by `for (let i = 0; i < totalBars; i++)`: the loop
counts up from 0 and stops at the first `i` with `¬ i < totalBars`; since the
guard is downward closed and `totalBars N ≤ 64`, the visited indices are
exactly the `i < 64` satisfying the guard. -/
def barIndices (N : ℕ) : List ℕ :=
  (List.range 64).filter (fun i => decide ((i : ℚ) < totalBars N))

/-- Number of loop iterations, i.e. of rendered mirrored bar-pairs. -/
def barPairCount (N : ℕ) : ℕ := (barIndices N).length

/-- Bar width `barW = (width / (totalBars * 2)) * 0.8`.  For `N = 0` the JS value is
`Infinity` where the Lean convention gives `width / 0 = 0`; in both models the
loop then runs zero times, so the value is never used. -/
def barWidthPx (width : ℚ) (N : ℕ) : ℚ := width / (totalBars N * 2) * 0.8

/-- Bar height `barHeight = (dataArray[i] / 255) * height * 0.6 * config.sensitivity`. -/
def barHeightPx (v : ℕ) (height sens : ℚ) : ℚ :=
  (v : ℚ) / 255 * height * 0.6 * sens

/-- The two mirrored `fillRect` calls of one loop iteration: right side at
`centerX + i*(barW+2)`, left side at `centerX - i*(barW+2) - barW`, both with
vertical extent centered on `height / 2`. -/
def barPair (data : List ℕ) (width height sens : ℚ) (i : ℕ) : List Rect :=
  let centerX := width / 2
  let bw := barWidthPx width data.length
  let bh := barHeightPx (data.getD i 0) height sens
  [{ x := centerX + (i : ℚ) * (bw + 2), y := height / 2 - bh / 2, w := bw, h := bh },
   { x := centerX - (i : ℚ) * (bw + 2) - bw, y := height / 2 - bh / 2, w := bw, h := bh }]

/-- All rectangles filled by the BARS case, in loop order. -/
def barsRects (data : List ℕ) (width height sens : ℚ) : List Rect :=
  (barIndices data.length).flatMap (barPair data width height sens)

/-! ## DRUMS variant (Visualizer.tsx lines 65-115) -/

/-- Exceptions the canvas API can raise in the modelled paths. -/
inductive DrawErr
  | notSupported
  | indexSize
  deriving DecidableEq

/-- Observable output of the DRUMS case: the kick radius, the snare size
(NaN possible: `strokeRect` with NaN arguments is silently ignored, so it
does not throw), the computed-but-unrendered mid energy, and the cymbal
streaks as (angle, length) pairs. -/
structure DrumsOut where
  kickRadius : ℚ
  snareSize : JSNum
  midEnergy : JSNum
  streaks : List (ℚ × ℚ)
  deriving DecidableEq

/-- The DRUMS case of `draw`.  The four band energies are computed first
(lines 73-76); `createRadialGradient(0, 0, 0, 0, 0, kickRadius)` throws
NotSupportedError when the radius is NaN and IndexSizeError when it is
negative (canvas specification); `arc` with non-finite arguments is ignored,
so nothing after the gradient can throw.  The cymbal block runs iff
`high > 0.35` (false when `high` is NaN) and draws exactly 8 streaks whose
angles come from `Math.random`, modelled by the `angles` argument. -/
def drumsRender (data : List ℕ) (sens : ℚ) (angles : ℕ → ℚ) :
    Except DrawErr DrumsOut :=
  let bass := getBandEnergy data 0 10
  let lowMid := getBandEnergy data 10 40
  let mid := getBandEnergy data 40 120
  let high := getBandEnergy data 120 data.length
  let kickRadius := jsAdd (some 40) (jsMul (jsMul bass (some 180)) (some sens))
  match kickRadius with
  | none => Except.error DrawErr.notSupported
  | some kr =>
    if kr < 0 then Except.error DrawErr.indexSize
    else
      let snareSize := jsMul (jsMul lowMid (some 200)) (some sens)
      let streaks :=
        if jsGT high 0.35 then
          (List.range 8).map (fun i => (angles i, high.getD 0 * 200))
        else []
      Except.ok { kickRadius := kr, snareSize := snareSize, midEnergy := mid,
                  streaks := streaks }

/-! ## VOCALS variant (Visualizer.tsx lines 117-169) -/

/-- Observable output of the VOCALS case: the base ring radius (NaN possible;
`moveTo` / `lineTo` with non-finite coordinates are silently ignored and
`fill` / `stroke` never throw, so a NaN radius does not throw), the number of
ring layers, and the number of sibilance sparks. -/
structure VocalsOut where
  baseRadius : JSNum
  ringLayers : ℕ
  sparks : ℕ
  deriving DecidableEq

/-- The VOCALS case of `draw`.  `vocalEnergy` divides by
`vocalEnd - vocalStart` with no emptiness guard, so it is NaN when the two
floors coincide (small buffers).  The sparks `arc` call uses radius
`2 * highMidEnergy`; a negative radius would throw IndexSizeError, a NaN one
is ignored — and the gate `highMidEnergy > 0.5` is false on NaN.  For an
empty buffer `dataArray[⌊N·0.4⌋]` is `undefined` and `undefined / 255` is
NaN.  Ring-path geometry (sinusoidal noise) cannot throw and is not part of
the observable output modelled here. -/
def vocalsRender (data : List ℕ) (sens : ℚ) : Except DrawErr VocalsOut :=
  let N := data.length
  let vocalStart := Nat.floor ((N : ℚ) * 0.05)
  let vocalEnd := Nat.floor ((N : ℚ) * 0.35)
  let vocalEnergy : JSNum :=
    if vocalEnd = vocalStart then none
    else some ((bandSum data vocalStart (vocalEnd - vocalStart) : ℚ) /
      ((vocalEnd : ℚ) - (vocalStart : ℚ)) / 255)
  let baseRadius := jsAdd (some 100) (jsMul (jsMul vocalEnergy (some 150)) (some sens))
  let highMid : JSNum :=
    match data[Nat.floor ((N : ℚ) * 0.4)]? with
    | none => none
    | some v => some ((v : ℚ) / 255)
  if jsGT highMid 0.5 then
    match highMid with
    | some hm =>
      if 2 * hm < 0 then Except.error DrawErr.indexSize
      else Except.ok { baseRadius := baseRadius, ringLayers := 3, sparks := 5 }
    | none => Except.ok { baseRadius := baseRadius, ringLayers := 3, sparks := 0 }
  else Except.ok { baseRadius := baseRadius, ringLayers := 3, sparks := 0 }

/-! ## Capture pipeline (`startRecording` / `stopRecording` in the app) -/

/-- State of the capture pipeline.  `recorder` is `mediaRecorderRef.current`
(the id of the recorder the ref points at); `running` lists every recorder
that has been started and not stopped — more than one element means duplicate
concurrent sessions; `chunks` is `recordedChunksRef.current`. -/
structure CaptureState where
  isRecording : Bool
  recorder : Option ℕ
  running : List ℕ
  chunks : List ℕ
  nextId : ℕ
  deriving DecidableEq

/-- The app state before any recording. -/
def captureInit : CaptureState :=
  { isRecording := false, recorder := none, running := [], chunks := [],
    nextId := 0 }

/-- Handler `startRecording`: returns immediately when the canvas or the audio
destination is missing (`if (!canvas || !audioDestinationRef.current) return`);
otherwise it clears the chunk buffer, builds and starts a fresh MediaRecorder
(a new id pushed onto `running`; note that a previously active recorder is
not stopped and keeps running), stores it in the ref and sets `isRecording`. -/
def startRecordingM (canvasPresent destPresent : Bool) (s : CaptureState) :
    CaptureState :=
  if canvasPresent = false ∨ destPresent = false then s
  else
    { isRecording := true
      recorder := some s.nextId
      running := s.nextId :: s.running
      chunks := []
      nextId := s.nextId + 1 }

/-- Handler `stopRecording`: guarded by `mediaRecorderRef.current && isRecording`.
`recorder.stop()` fires `onstop`, which flushes the chunks to a download and
sets `isRecording` to false; the ref keeps pointing at the stopped
recorder. -/
def stopRecordingM (s : CaptureState) : CaptureState :=
  match s.recorder, s.isRecording with
  | some r, true => { s with running := s.running.erase r, isRecording := false }
  | _, _ => s

/-! ## Animation driver (Visualizer.tsx lines 175-184 and 172) -/

/-- State of the frame-callback lifecycle.  `host` is the id of the callback
currently scheduled in the host animation-frame queue (`none` if nothing is
pending); `ref` is `animationFrameRef.current`; ids are never reused. -/
structure DriverState where
  host : Option ℕ
  ref : Option ℕ
  nextId : ℕ
  paints : ℕ
  deriving DecidableEq

/-- The `isActive` branch of the effect:
`animationFrameRef.current = requestAnimationFrame(draw)`. -/
def driverStart (s : DriverState) : DriverState :=
  { host := some s.nextId, ref := some s.nextId, nextId := s.nextId + 1,
    paints := s.paints }

/-- The host fires the pending callback: `draw` runs to completion (one
paint) and its last statement re-schedules itself, storing the fresh id in
the ref (line 172).  With nothing pending there is no callback to fire. -/
def driverFire (s : DriverState) : DriverState :=
  match s.host with
  | none => s
  | some _ =>
    { host := some s.nextId, ref := some s.nextId, nextId := s.nextId + 1,
      paints := s.paints + 1 }

/-- The `else` branch of the effect (and the effect cleanup):
`cancelAnimationFrame(animationFrameRef.current)` removes that id from the
host queue if it is still scheduled; the ref itself is not cleared. -/
def driverStop (s : DriverState) : DriverState :=
  match s.ref with
  | none => s
  | some r => { s with host := if s.host = some r then none else s.host }

inductive DriverEvent
  | fire
  | stopReq
  | startReq
  deriving DecidableEq

def driverStep (s : DriverState) : DriverEvent → DriverState
  | DriverEvent.fire => driverFire s
  | DriverEvent.stopReq => driverStop s
  | DriverEvent.startReq => driverStart s

def runDriver (s : DriverState) (evs : List DriverEvent) : DriverState :=
  evs.foldl driverStep s

/-- Component state on mount: no callback scheduled, ref unset. -/
def initDriver : DriverState :=
  { host := none, ref := none, nextId := 0, paints := 0 }

/-! ## Audio analysis (`analyzeAudio` in the service module) -/

/-- The object `analyzeAudio` returns.  TS typing is structural and
`JSON.parse` is unvalidated, so every field may be absent (`undefined`),
modelled by `Option`. -/
structure JsAnalysis where
  mood : Option String
  colors : Option (List String)
  energy : JSNum
  description : Option String
  visualTheme : Option String
  deriving DecidableEq

/-- The hard-coded fallback returned from the `catch` block. -/
def fallbackAnalysis : JsAnalysis :=
  { mood := some "Unknown"
    colors := some ["#3b82f6", "#8b5cf6", "#ec4899"]
    energy := some 0.5
    description := some "Unable to analyze audio features. Using default visuals."
    visualTheme := some "Generic" }

/-- A result is well formed when every field of the declared interface is
actually present. -/
def wellFormedAnalysis (a : JsAnalysis) : Bool :=
  a.mood.isSome && a.colors.isSome && a.energy.isSome &&
  a.description.isSome && a.visualTheme.isSome

/-- Coercion `response.text || "\x7b\x7d"`: `undefined` and the empty string are falsy. -/
def effectiveText (t : Option String) : String :=
  match t with
  | none => "\x7b\x7d"
  | some s => if s = "" then "\x7b\x7d" else s

/-- Service `analyzeAudio`: the model call and `JSON.parse` both sit inside the
`try`, whose `catch` returns `fallbackAnalysis`.  The call outcome is the
input `api` (`Except.error` = the promise rejected; `Except.ok t` = a
response whose `.text` is `t`); `parse` is the platform `JSON.parse`
composed with structural coercion to the interface. -/
def analyzeAudio (parse : String → Except Unit JsAnalysis)
    (api : Except Unit (Option String)) : JsAnalysis :=
  match api with
  | Except.error _ => fallbackAnalysis
  | Except.ok t =>
    match parse (effectiveText t) with
    | Except.ok r => r
    | Except.error _ => fallbackAnalysis

/-- A concrete model of `JSON.parse` restricted to what the proofs evaluate:
the empty-object literal parses to an object with no fields (as in JS); any
other string is conservatively treated as a parse failure. -/
def jsonParseEmptyObject : String → Except Unit JsAnalysis :=
  fun s => if s = "\x7b\x7d" then Except.ok
    { mood := none, colors := none, energy := none, description := none,
      visualTheme := none }
  else Except.error ()

/-! ## Per-frame mutation footprint (Visualizer.tsx lines 16-29) -/

/-- The program state `draw` can read or write besides the canvas: the phase
accumulator `timeRef.current`, the committed configuration and the snapshot
buffer. -/
structure FrameState where
  time : ℚ
  config : VisualizerConfig
  snapshot : List ℕ
  deriving DecidableEq

/-- The state update performed by one invocation of `draw`: the guards at
lines 17 and 21 return before anything is touched; otherwise the only write
outside the canvas (and the animation-frame ref) is
`timeRef.current += 0.015` (line 29). -/
def drawTick (canvasPresent analyserPresent ctxPresent : Bool)
    (s : FrameState) : FrameState :=
  if canvasPresent = false then s
  else if analyserPresent = false then s
  else if ctxPresent = false then s
  else { s with time := s.time + 0.015 }

/-! ## Spec-side observation helpers -/

/-- Spec-side check: the value is a finite number in `[0, 1]` (as the spec
requires of a band energy); NaN is not. -/
def isUnitInterval (x : JSNum) : Bool :=
  match x with
  | none => false
  | some q => decide (0 ≤ q ∧ q ≤ 1)

/-- Spec-side check: did the render step complete without throwing? -/
def renderOk {β : Type} (r : Except DrawErr β) : Bool :=
  match r with
  | Except.ok _ => true
  | Except.error _ => false

/-- Spec-side check: a zero-energy JS value — either exactly 0 or NaN (NaN
geometry is silently ignored by the canvas, so both draw nothing). -/
def zeroJS (x : JSNum) : Bool :=
  match x with
  | none => true
  | some q => decide (q = 0)

/-- Spec-side check: the DRUMS output is the idle/no-energy frame — the kick
disc at its resting radius 40, a zero-energy snare, and no cymbal streaks. -/
def drumsZeroFrame (r : Except DrawErr DrumsOut) : Bool :=
  match r with
  | Except.ok o => decide (o.kickRadius = 40) && zeroJS o.snareSize &&
      decide (o.streaks = [])
  | Except.error _ => false

/-- Spec-side projection: the spark count of a completed VOCALS frame. -/
def vocalsSparks (r : Except DrawErr VocalsOut) : Option ℕ :=
  match r with
  | Except.ok o => some o.sparks
  | Except.error _ => none

/-- The DRUMS output on the one-bin zero snapshot, used as a concrete
instance. -/
def drumsOutZero : DrumsOut :=
  { kickRadius := 40, snareSize := some 0, midEnergy := some 0, streaks := [] }

/-- Invariant of the driver: whenever a callback is scheduled in the host,
`animationFrameRef` holds its id (so cancelling through the ref always hits
the pending callback). -/
def DriverInv (s : DriverState) : Prop :=
  s.host = none ∨ s.host = s.ref

/-!
# Theorems

Helper lemmas first, then one theorem per claim (with its counterexample and
witness where applicable).
-/

/-- Every snapshot value read by the loop is a byte bound. -/
theorem getD_le_255 (data : List ℕ) (hv : ∀ v ∈ data, v ≤ 255) (idx : ℕ) :
    data.getD idx 0 ≤ 255 := by
  rcases lt_or_ge idx data.length with hlt | hge
  · rw [List.getD_eq_getElem data 0 hlt]
    exact hv _ (List.getElem_mem hlt)
  · rw [List.getD_eq_default data 0 hge]
    exact Nat.zero_le 255

/-- The band sum over `len` bins of byte values is at most `len * 255`. -/
theorem bandSum_le (data : List ℕ) (hv : ∀ v ∈ data, v ≤ 255)
    (start len : ℕ) : bandSum data start len ≤ len * 255 := by
  unfold bandSum
  have h := List.sum_le_card_nsmul
    ((List.range len).map (fun k => data.getD (start + k) 0)) 255 ?_
  · simpa using h
  · intro x hx
    rcases List.mem_map.mp hx with ⟨k, _, rfl⟩
    exact getD_le_255 data hv _

theorem getD_replicate_zero (N idx : ℕ) :
    (List.replicate N (0 : ℕ)).getD idx 0 = 0 := by
  rcases lt_or_ge idx N with hlt | hge
  · rw [List.getD_eq_getElem _ 0 (by simpa using hlt)]
    simp
  · rw [List.getD_eq_default _ 0 (by simpa using hge)]

theorem bandSum_replicate_zero (N start len : ℕ) :
    bandSum (List.replicate N 0) start len = 0 := by
  unfold bandSum
  apply List.sum_eq_zero
  intro x hx
  rcases List.mem_map.mp hx with ⟨k, _, rfl⟩
  exact getD_replicate_zero N _

/-- On a nonempty clamped range with byte-bounded bins the band energy is a
finite value in `[0, 1]`. -/
theorem bandEnergy_pos_range (data : List ℕ) (a b : ℕ)
    (hv : ∀ v ∈ data, v ≤ 255) (h : a < min b data.length) :
    isUnitInterval (getBandEnergy data a b) = true := by
  unfold getBandEnergy isUnitInterval
  have hne : ¬ (min b data.length = a) := by omega
  simp only [hne, if_false, decide_eq_true_eq]
  have hA : (a : ℚ) < ((min b data.length : ℕ) : ℚ) := by exact_mod_cast h
  have hD : (0 : ℚ) < ((min b data.length : ℕ) : ℚ) - (a : ℚ) := by linarith
  have hcast : ((min b data.length - a : ℕ) : ℚ)
      = ((min b data.length : ℕ) : ℚ) - (a : ℚ) :=
    Nat.cast_sub (le_of_lt h)
  have hS : ((bandSum data a (min b data.length - a) : ℕ) : ℚ)
      ≤ ((min b data.length - a : ℕ) : ℚ) * 255 := by
    exact_mod_cast bandSum_le data hv a (min b data.length - a)
  constructor
  · apply div_nonneg (div_nonneg (by positivity) (le_of_lt hD)) (by norm_num)
  · rw [div_le_one (by norm_num : (0 : ℚ) < 255), div_le_iff₀ hD]
    rw [hcast] at hS
    linarith

/-- When the clamped range is empty with `start` equal to the clamped end,
the division is `0/0` and the result is NaN. -/
theorem bandEnergy_empty_range (data : List ℕ) (a b : ℕ)
    (h : min b data.length = a) : getBandEnergy data a b = none := by
  unfold getBandEnergy
  simp [h]

/-- When `start` exceeds the clamped end, the loop never runs and the JS
result is `-0`, i.e. 0. -/
theorem bandEnergy_rev_range (data : List ℕ) (a b : ℕ)
    (h : min b data.length < a) : getBandEnergy data a b = some 0 := by
  unfold getBandEnergy
  have hne : ¬ (min b data.length = a) := by omega
  have hz : min b data.length - a = 0 := by omega
  simp only [hne, if_false, hz]
  have : bandSum data a 0 = 0 := by simp [bandSum]
  rw [this]
  norm_num

/-- A band energy of the all-zero snapshot is NaN or 0. -/
theorem bandEnergy_replicate_zero (N a b : ℕ) :
    getBandEnergy (List.replicate N 0) a b = none ∨
    getBandEnergy (List.replicate N 0) a b = some 0 := by
  unfold getBandEnergy
  simp only [List.length_replicate]
  by_cases h : min b N = a
  · left
    simp [h]
  · right
    simp only [h, if_false]
    rw [bandSum_replicate_zero]
    norm_num

/-- C1 (amended): `getBandEnergy` clamps `end` to the snapshot length `N`
and, for byte-valued bins, returns the mean magnitude divided by 255 — a
value in `[0, 1]` — whenever the clamped range is nonempty; but when the
clamped end equals `start` (the empty range the claim covers) the code
divides by zero and yields NaN rather than 0; the value 0 is produced only
when `start` lies beyond the clamped end (JS `-0`). -/
theorem C1_band_energy_clamped (data : List ℕ) (start e : ℕ)
    (hv : ∀ v ∈ data, v ≤ 255) :
    (start < min e data.length →
      isUnitInterval (getBandEnergy data start e) = true)
  ∧ (start = min e data.length → getBandEnergy data start e = none)
  ∧ (min e data.length < start → getBandEnergy data start e = some 0) :=
  ⟨fun h => bandEnergy_pos_range data start e hv h,
   fun h => bandEnergy_empty_range data start e h.symm,
   fun h => bandEnergy_rev_range data start e h⟩

/-- C1 counterexample: on the empty snapshot the bass band `[0, 10)` clamps
to an empty range and `getBandEnergy` returns NaN (`0/0`), not the 0 the
claim states. -/
theorem C1_empty_range_is_nan :
    getBandEnergy [] 0 10 = none ∧ getBandEnergy [] 0 10 ≠ some 0 := by
  exact ⟨rfl, by decide⟩

/-- C1 witness: a one-bin snapshot with a nonempty band. -/
theorem C1_band_energy_clamped_witness :
    isUnitInterval (getBandEnergy [100] 0 1) = true :=
  (C1_band_energy_clamped [100] 0 1 (by decide)).1 (by decide)

/-- C2: on a single-color palette the only stop offset computed by the
pre-frame gradient construction is `0 / (1 - 1) = NaN`, and
`addColorStop(NaN, c)` throws an IndexSizeError — the gradient does not
degenerate to a solid fill, the renderer throws. -/
theorem C2_single_color_gradient_throws :
    gradientConstructionThrows ["#3b82f6"] = true := rfl

/-- C9 (amended): `analyzeAudio` never propagates an error — the model call
and `JSON.parse` both sit inside the `try`, so a rejected call or a parse
failure yields exactly the fixed fallback — but a successful parse is
returned unvalidated, so it need not be a well-formed result. -/
theorem C9_analyze_audio (parse : String → Except Unit JsAnalysis)
    (api : Except Unit (Option String)) :
    (api = Except.error () → analyzeAudio parse api = fallbackAnalysis)
  ∧ (∀ t, api = Except.ok t → parse (effectiveText t) = Except.error () →
      analyzeAudio parse api = fallbackAnalysis)
  ∧ (∀ t r, api = Except.ok t → parse (effectiveText t) = Except.ok r →
      analyzeAudio parse api = r) := by
  refine ⟨?_, ?_, ?_⟩
  · rintro rfl
    rfl
  · rintro t rfl hp
    simp [analyzeAudio, hp]
  · rintro t r rfl hp
    simp [analyzeAudio, hp]

/-- C9 counterexample: a fulfilled model call whose response text is empty is
coerced to the empty object literal, parses successfully, and `analyzeAudio`
returns an object with none of the required fields — neither a well-formed
result nor the fixed fallback. -/
theorem C9_not_wellformed_not_fallback :
    wellFormedAnalysis (analyzeAudio jsonParseEmptyObject
      (Except.ok (some ""))) = false
  ∧ analyzeAudio jsonParseEmptyObject (Except.ok (some "")) ≠
      fallbackAnalysis := by
  decide

/-- C9 witness: the error path returns the fallback, and the success path
returns the parsed object. -/
theorem C9_analyze_audio_witness :
    analyzeAudio jsonParseEmptyObject (Except.error ()) = fallbackAnalysis
  ∧ analyzeAudio jsonParseEmptyObject (Except.ok (some "")) =
      { mood := none, colors := none, energy := none, description := none,
        visualTheme := none } :=
  ⟨(C9_analyze_audio jsonParseEmptyObject (Except.error ())).1 rfl,
   (C9_analyze_audio jsonParseEmptyObject (Except.ok (some ""))).2.2
     (some "")
     { mood := none, colors := none, energy := none, description := none,
       visualTheme := none } rfl rfl⟩

/-- Filtering an initial range by an upper bound yields an initial range. -/
theorem filter_range_lt (K n : ℕ) :
    (List.range n).filter (fun i => decide (i < K)) = List.range (min K n) := by
  induction n with
  | zero => simp
  | succ n ih =>
    rw [List.range_succ, List.filter_append, ih]
    by_cases h : n < K
    · have h1 : min K (n + 1) = n + 1 := by omega
      have h2 : min K n = n := by omega
      rw [h1, h2, List.range_succ]
      simp [h]
    · have h1 : min K (n + 1) = K := by omega
      have h2 : min K n = K := by omega
      rw [h1, h2]
      simp [h]

/-- The bar loop visits exactly the indices `0, 1, …, min(⌈N/2⌉, 64) - 1`:
the rational guard `i < min(N/2, 64)` holds for a natural `i < 64` exactly
when `2i < N`. -/
theorem barIndices_eq (N : ℕ) :
    barIndices N = List.range (min ((N + 1) / 2) 64) := by
  unfold barIndices
  have hcongr : (List.range 64).filter
        (fun (i : ℕ) => decide ((i : ℚ) < totalBars N)) =
      (List.range 64).filter (fun (i : ℕ) => decide (i < (N + 1) / 2)) := by
    apply List.filter_congr
    intro i hi
    have hi64 : i < 64 := List.mem_range.mp hi
    rw [decide_eq_decide]
    unfold totalBars
    rw [lt_min_iff]
    constructor
    · rintro ⟨h1, _⟩
      have h2 : (i : ℚ) * 2 < N := (lt_div_iff₀ (by norm_num)).mp h1
      have h3 : i * 2 < N := by exact_mod_cast h2
      omega
    · intro hiK
      refine ⟨?_, ?_⟩
      · rw [lt_div_iff₀ (by norm_num : (0 : ℚ) < 2)]
        have h3 : i * 2 < N := by omega
        exact_mod_cast h3
      · exact_mod_cast hi64
  rw [hcongr, filter_range_lt]

theorem barPairCount_eq (N : ℕ) :
    barPairCount N = min ((N + 1) / 2) 64 := by
  unfold barPairCount
  rw [barIndices_eq, List.length_range]

/-- C4 (amended): for a snapshot of `N ≥ 1` bins the BARS case renders
exactly `min(⌈N/2⌉, 64)` mirrored bar-pairs — which equals `min(N/2, 64)`
for the even bin counts an analyser produces, but exceeds the claimed
integer `min(N/2, 64)` for odd `N` — as consecutive indices `0, 1, 2, …`;
pair 0 is adjacent to the horizontal center on both sides (its right bar
starts at `width/2`, its left bar ends at `width/2`), and increasing index
moves both bars outward. -/
theorem C4_bar_pairs (data : List ℕ) (w h sens : ℚ)
    (hN : 1 ≤ data.length) (hw : 0 ≤ w) :
    barPairCount data.length = min ((data.length + 1) / 2) 64
  ∧ (barsRects data w h sens).length = 2 * barPairCount data.length
  ∧ barIndices data.length = List.range (min ((data.length + 1) / 2) 64)
  ∧ (barsRects data w h sens)[0]? = some
      { x := w / 2
        y := h / 2 - barHeightPx (data.getD 0 0) h sens / 2
        w := barWidthPx w data.length
        h := barHeightPx (data.getD 0 0) h sens }
  ∧ (barsRects data w h sens)[1]? = some
      { x := w / 2 - barWidthPx w data.length
        y := h / 2 - barHeightPx (data.getD 0 0) h sens / 2
        w := barWidthPx w data.length
        h := barHeightPx (data.getD 0 0) h sens }
  ∧ (∀ i j : ℕ, i < j →
      w / 2 + (i : ℚ) * (barWidthPx w data.length + 2) <
        w / 2 + (j : ℚ) * (barWidthPx w data.length + 2)
      ∧ w / 2 - (j : ℚ) * (barWidthPx w data.length + 2) -
          barWidthPx w data.length <
        w / 2 - (i : ℚ) * (barWidthPx w data.length + 2) -
          barWidthPx w data.length) := by
  have hbw : 0 ≤ barWidthPx w data.length := by
    unfold barWidthPx totalBars
    have h2 : (0 : ℚ) < min ((data.length : ℚ) / 2) 64 * 2 := by
      have : (1 : ℚ) ≤ (data.length : ℚ) := by exact_mod_cast hN
      have hmin : (1 : ℚ) / 2 ≤ min ((data.length : ℚ) / 2) 64 :=
        le_min (by linarith) (by norm_num)
      linarith
    positivity
  have hhead : barIndices data.length =
      0 :: (List.range (min ((data.length + 1) / 2) 64 - 1)).map Nat.succ := by
    rw [barIndices_eq]
    obtain ⟨K, hK⟩ : ∃ K, min ((data.length + 1) / 2) 64 = K + 1 :=
      ⟨min ((data.length + 1) / 2) 64 - 1, by omega⟩
    rw [hK, List.range_succ_eq_map, Nat.add_sub_cancel]
  refine ⟨barPairCount_eq data.length, ?_, barIndices_eq data.length, ?_, ?_, ?_⟩
  · unfold barsRects barPairCount
    rw [List.length_flatMap]
    have hmap : List.map (List.length ∘ barPair data w h sens)
        (barIndices data.length) =
        List.replicate (barIndices data.length).length 2 := by
      rw [show List.length ∘ barPair data w h sens =
          Function.const ℕ 2 from funext (fun i => rfl)]
      exact List.map_const _ 2
    rw [hmap, List.sum_replicate, smul_eq_mul, Nat.mul_comm]
  · unfold barsRects
    rw [hhead, List.flatMap_cons]
    have : (barPair data w h sens 0 ++
        ((List.range (min ((data.length + 1) / 2) 64 - 1)).map Nat.succ).flatMap
          (barPair data w h sens))[0]? = (barPair data w h sens 0)[0]? := by
      rw [List.getElem?_append]
      simp [barPair]
    rw [this]
    unfold barPair
    simp only [List.getElem?_cons_zero, Option.some.injEq]
    congr 1
    ring
  · unfold barsRects
    rw [hhead, List.flatMap_cons]
    have : (barPair data w h sens 0 ++
        ((List.range (min ((data.length + 1) / 2) 64 - 1)).map Nat.succ).flatMap
          (barPair data w h sens))[1]? = (barPair data w h sens 0)[1]? := by
      rw [List.getElem?_append]
      simp [barPair]
    rw [this]
    unfold barPair
    simp only [List.getElem?_cons_zero, List.getElem?_cons_succ,
      Option.some.injEq]
    congr 1
    ring
  · intro i j hij
    have hij' : (i : ℚ) < (j : ℚ) := by exact_mod_cast hij
    have hpos : (0 : ℚ) < barWidthPx w data.length + 2 := by linarith
    have hmul : (i : ℚ) * (barWidthPx w data.length + 2) <
        (j : ℚ) * (barWidthPx w data.length + 2) :=
      mul_lt_mul_of_pos_right hij' hpos
    exact ⟨by linarith, by linarith⟩

/-- C4 counterexample: a 3-bin snapshot renders 2 mirrored bar-pairs (the
loop bound `min(3/2, 64) = 1.5` admits `i = 0` and `i = 1`), not the
`min(3/2, 64) = 1` of the claim read over the integers. -/
theorem C4_odd_bins_pair_count :
    barPairCount 3 ≠ min (3 / 2) 64 := by
  rw [barPairCount_eq]
  decide

/-- C4 witness: a 2-bin snapshot renders 1 pair flush against the center. -/
theorem C4_bar_pairs_witness :
    barPairCount 2 = min ((2 + 1) / 2) 64
  ∧ (barsRects [10, 20] 0 5 1).length = 2 * barPairCount 2
  ∧ (barsRects [10, 20] 0 5 1)[0]? = some
      { x := 0 / 2
        y := 5 / 2 - barHeightPx ([10, 20].getD 0 0) 5 1 / 2
        w := barWidthPx 0 2
        h := barHeightPx ([10, 20].getD 0 0) 5 1 } :=
  ⟨(C4_bar_pairs [10, 20] 0 5 1 (by decide) (le_refl 0)).1,
   (C4_bar_pairs [10, 20] 0 5 1 (by decide) (le_refl 0)).2.1,
   (C4_bar_pairs [10, 20] 0 5 1 (by decide) (le_refl 0)).2.2.2.1⟩

/-- C5: every rendered bar (both sides of each mirrored pair, in loop order)
has height `(v/255) · height · 0.6 · sensitivity` where `v` is the driving
bin magnitude; in particular on the 3-bin snapshot `[255, 0, 128]` with
sensitivity 1 the pair driven by bin 0 has full-scale height `h · 0.6` and
the pair driven by the zero bin has height 0. -/
theorem C5_bar_heights (data : List ℕ) (w h sens : ℚ) :
    (barsRects data w h sens).map Rect.h =
      (barIndices data.length).flatMap (fun i =>
        [(data.getD i 0 : ℚ) / 255 * h * 0.6 * sens,
         (data.getD i 0 : ℚ) / 255 * h * 0.6 * sens])
  ∧ (barsRects [255, 0, 128] w h 1).map Rect.h = [h * 0.6, h * 0.6, 0, 0] := by
  constructor
  · unfold barsRects
    rw [List.map_flatMap]
    congr 1
  · have h3 : barIndices ([255, 0, 128] : List ℕ).length = [0, 1] := by
      rw [barIndices_eq]
      rfl
    unfold barsRects
    rw [h3]
    simp only [List.flatMap_cons, List.flatMap_nil, List.append_nil,
      List.map_append]
    simp only [barPair, barHeightPx, List.map_cons, List.map_nil,
      List.getD_cons_zero, List.getD_cons_succ]
    simp only [List.cons_append, List.nil_append]
    norm_num

/-- C3 (amended): on the all-zero snapshot every variant completes its draw
call without throwing and produces the no-energy frame (zero-height bars, the
kick disc at its resting radius with no snare extent and no cymbal streaks,
no sibilance sparks); on the empty snapshot BARS (no rectangles) and VOCALS
(NaN geometry, silently ignored by the canvas) also complete, but DRUMS
throws: the NaN bass energy reaches `createRadialGradient`. -/
theorem C3_idle_frames (N : ℕ) (hN : 1 ≤ N) (w h sens : ℚ)
    (angles : ℕ → ℚ) (data : List ℕ) :
    ((barsRects (List.replicate N 0) w h sens).all
      (fun r => decide (r.h = 0)) = true)
  ∧ barsRects ([] : List ℕ) w h sens = []
  ∧ drumsZeroFrame (drumsRender (List.replicate N 0) sens angles) = true
  ∧ renderOk (vocalsRender data sens) = true
  ∧ vocalsSparks (vocalsRender (List.replicate N 0) sens) = some 0
  ∧ drumsRender ([] : List ℕ) sens angles
      = Except.error DrawErr.notSupported := by
  refine ⟨?_, ?_, ?_, ?_, ?_, ?_⟩
  · rw [List.all_eq_true]
    intro r hr
    rw [decide_eq_true_eq]
    unfold barsRects at hr
    rw [List.mem_flatMap] at hr
    obtain ⟨i, _, hri⟩ := hr
    have hzero : barHeightPx ((List.replicate N 0).getD i 0) h sens = 0 := by
      rw [getD_replicate_zero]
      unfold barHeightPx
      norm_num
    simp only [barPair, List.mem_cons, List.mem_singleton] at hri
    rcases hri with h1 | h1 | h1
    · rw [h1]
      exact hzero
    · rw [h1]
      exact hzero
    · exact absurd h1 (List.not_mem_nil r)
  · unfold barsRects
    rw [show ([] : List ℕ).length = 0 from rfl, barIndices_eq]
    rfl
  · have hbass : getBandEnergy (List.replicate N 0) 0 10 = some 0 := by
      unfold getBandEnergy
      simp only [List.length_replicate]
      have hne : ¬ (min 10 N = 0) := by omega
      simp only [hne, if_false]
      rw [bandSum_replicate_zero]
      norm_num
    unfold drumsRender
    rw [hbass]
    rcases bandEnergy_replicate_zero N 10 40 with hlm | hlm <;>
      rcases bandEnergy_replicate_zero N 120 (List.replicate N 0).length
        with hh | hh <;>
      rw [hlm, hh] <;>
      norm_num [drumsZeroFrame, zeroJS, jsGT, jsMul, jsAdd]
  · unfold renderOk vocalsRender
    dsimp only
    rcases hidx : data[Nat.floor ((data.length : ℚ) * 0.4)]? with _ | v
    · simp [jsGT]
    · cases hb : jsGT (some ((v : ℚ) / 255)) 0.5
      · simp [hb]
      · simp only [hb, if_true]
        have h0 : (0 : ℚ) ≤ 2 * ((v : ℚ) / 255) := by positivity
        rw [if_neg (not_lt.mpr h0)]
  · unfold vocalsSparks vocalsRender
    dsimp only
    rcases hidx : (List.replicate N (0 : ℕ))[Nat.floor
        (((List.replicate N (0 : ℕ)).length : ℚ) * 0.4)]? with _ | v
    · simp [jsGT]
    · have hv : v = 0 := by
        rw [List.getElem?_replicate] at hidx
        by_cases hlt : Nat.floor
            (((List.replicate N (0 : ℕ)).length : ℚ) * 0.4) < N
        · rw [if_pos hlt] at hidx
          exact (Option.some_inj.mp hidx).symm
        · rw [if_neg hlt] at hidx
          exact absurd hidx (by simp)
      subst hv
      norm_num [jsGT]
  · unfold drumsRender
    rw [bandEnergy_empty_range [] 0 10 (by simp)]
    simp [jsMul, jsAdd]

/-- C3 counterexample: on the empty (zero-length) snapshot the DRUMS variant
does not complete its draw call — the bass band energy is `0/0 = NaN`, the
kick radius is NaN, and `createRadialGradient` throws NotSupportedError. -/
theorem C3_drums_empty_throws :
    drumsRender ([] : List ℕ) 1.2 (fun _ => 0)
      = Except.error DrawErr.notSupported := rfl

/-- C3 witness: concrete idle frames for a one-bin zero snapshot. -/
theorem C3_idle_frames_witness :
    ((barsRects (List.replicate 1 0) 0 1 1).all
      (fun r => decide (r.h = 0)) = true)
  ∧ barsRects ([] : List ℕ) 0 1 1 = []
  ∧ drumsZeroFrame (drumsRender (List.replicate 1 0) 1 (fun _ => 0)) = true
  ∧ renderOk (vocalsRender [5] 1) = true
  ∧ vocalsSparks (vocalsRender (List.replicate 1 0) 1) = some 0
  ∧ drumsRender ([] : List ℕ) 1 (fun _ => 0)
      = Except.error DrawErr.notSupported :=
  C3_idle_frames 1 (by decide) 0 1 1 (fun _ => 0) [5]

/-- C6: in any completed DRUMS frame, cymbal streaks are present if and only
if the computed high-band energy strictly exceeds the fixed threshold 0.35
(a NaN energy compares false and gates them off), and when present exactly 8
streaks are drawn. -/
theorem C6_cymbal_gate (data : List ℕ) (sens : ℚ) (angles : ℕ → ℚ)
    (out : DrumsOut) (hok : drumsRender data sens angles = Except.ok out) :
    (out.streaks ≠ [] ↔
      jsGT (getBandEnergy data 120 data.length) 0.35 = true)
  ∧ (jsGT (getBandEnergy data 120 data.length) 0.35 = true →
      out.streaks.length = 8) := by
  unfold drumsRender at hok
  dsimp only at hok
  rcases hk : jsAdd (some 40)
      (jsMul (jsMul (getBandEnergy data 0 10) (some 180)) (some sens))
    with _ | kr
  · rw [hk] at hok
    exact absurd hok (by simp)
  · rw [hk] at hok
    dsimp only at hok
    by_cases hneg : kr < 0
    · rw [if_pos hneg] at hok
      exact absurd hok (by simp)
    · rw [if_neg hneg] at hok
      injection hok with hout
      subst hout
      cases hgt : jsGT (getBandEnergy data 120 data.length) 0.35
      · simp [hgt]
      · simp [hgt]

/-- C6 witness: a one-bin zero snapshot completes with high energy 0 and no
streaks. -/
theorem C6_cymbal_gate_witness :
    (drumsOutZero.streaks ≠ [] ↔
      jsGT (getBandEnergy [0] 120 ([0] : List ℕ).length) 0.35 = true)
  ∧ (jsGT (getBandEnergy [0] 120 ([0] : List ℕ).length) 0.35 = true →
      drumsOutZero.streaks.length = 8) :=
  C6_cymbal_gate [0] 1 (fun _ => 0) drumsOutZero (by
    norm_num [drumsRender, getBandEnergy, bandSum, jsAdd, jsMul, jsGT,
      drumsOutZero])

/-- C10 (amended): one invocation of `draw` leaves the configuration and the
snapshot unchanged; an invocation that passes the canvas/analyser/context
guards adds exactly 0.015 to the phase accumulator, while a guarded-out
invocation leaves it unchanged — so the accumulator never decreases and is
never reset, but (contrary to the claim) not every invocation increments
it. -/
theorem C10_draw_tick (c a k : Bool) (s : FrameState) :
    (drawTick c a k s).config = s.config
  ∧ (drawTick c a k s).snapshot = s.snapshot
  ∧ (c = true → a = true → k = true →
      (drawTick c a k s).time = s.time + 0.015)
  ∧ s.time ≤ (drawTick c a k s).time
  ∧ (a = false → (drawTick c a k s).time = s.time) := by
  refine ⟨?_, ?_, ?_, ?_, ?_⟩
  · cases c <;> cases a <;> cases k <;> rfl
  · cases c <;> cases a <;> cases k <;> rfl
  · intro hc ha hk
    subst hc; subst ha; subst hk
    rfl
  · cases c <;> cases a <;> cases k <;>
      first
      | exact le_refl _
      | exact le_add_of_nonneg_right (a := s.time) (by norm_num : (0:ℚ) ≤ 0.015)
  · intro ha
    subst ha
    cases c <;> cases k <;> rfl

/-- C10 counterexample: an invocation of `draw` with no analyser attached
returns at the guard and does not advance the phase accumulator by 0.015. -/
theorem C10_guarded_tick_no_increment :
    (drawTick true false true
      { time := 0, config := defaultConfig, snapshot := [] }).time
      ≠ 0 + 0.015 := by
  have h : (drawTick true false true
      { time := 0, config := defaultConfig, snapshot := [] }).time = 0 := rfl
  rw [h]
  norm_num

/-- C7 (amended): starting a recording with no canvas or no audio
destination is a silent no-op (every piece of state, including the idle
session, is unchanged), and stopping while not recording — or with no
recorder in the ref — is a no-op; but `startRecording` itself has no
already-recording guard: invoked while a recording is active it starts a
second concurrent recorder and orphans the first (only the UI prevents this
by hiding the start control while recording). -/
theorem C7_capture_guards (s : CaptureState) (cp dp : Bool) :
    (cp = false ∨ dp = false → startRecordingM cp dp s = s)
  ∧ (s.isRecording = false → stopRecordingM s = s)
  ∧ (s.recorder = none → stopRecordingM s = s)
  ∧ (s.isRecording = true →
      (startRecordingM true true s).running.length = s.running.length + 1) := by
  refine ⟨?_, ?_, ?_, ?_⟩
  · intro h
    unfold startRecordingM
    rw [if_pos h]
  · intro h
    unfold stopRecordingM
    rcases hr : s.recorder with _ | r <;> simp [h]
  · intro h
    unfold stopRecordingM
    simp [h]
  · intro _
    unfold startRecordingM
    simp

/-- C7 counterexample: with canvas and destination present, calling
`startRecording` while a recording is already active is not a no-op and
leaves two started, unstopped recorders. -/
theorem C7_start_while_recording_duplicates :
    startRecordingM true true
      { isRecording := true, recorder := some 0, running := [0],
        chunks := [], nextId := 1 } ≠
      { isRecording := true, recorder := some 0, running := [0],
        chunks := [], nextId := 1 }
  ∧ (startRecordingM true true
      { isRecording := true, recorder := some 0, running := [0],
        chunks := [], nextId := 1 }).running.length = 2 := by
  decide

/-- C7 witness: guarded start and stop are no-ops on the idle state, and an
unguarded start while recording adds a session. -/
theorem C7_capture_guards_witness :
    startRecordingM false true captureInit = captureInit
  ∧ stopRecordingM captureInit = captureInit
  ∧ (startRecordingM true true
      { isRecording := true, recorder := some 0, running := [0],
        chunks := [], nextId := 1 }).running.length = [0].length + 1 :=
  ⟨(C7_capture_guards captureInit false true).1 (Or.inl rfl),
   (C7_capture_guards captureInit false true).2.1 rfl,
   (C7_capture_guards
      { isRecording := true, recorder := some 0, running := [0],
        chunks := [], nextId := 1 } true true).2.2.2 rfl⟩

/-- Every driver event preserves the ref/host invariant. -/
theorem driverInv_step (s : DriverState) (ev : DriverEvent)
    (h : DriverInv s) : DriverInv (driverStep s ev) := by
  cases ev
  · unfold driverStep driverFire
    rcases hh : s.host with _ | i
    · simpa [hh] using h
    · simp [hh, DriverInv]
  · unfold driverStep driverStop
    rcases hr : s.ref with _ | r
    · simpa [hr] using h
    · by_cases hh : s.host = some r
      · simp [hr, hh, DriverInv]
      · rcases h with h0 | h1
        · simp [hr, hh, DriverInv, h0]
        · rw [hr] at h1
          exact absurd h1 hh
  · unfold driverStep driverStart
    simp [DriverInv]

/-- The invariant holds along any run. -/
theorem driverInv_run (s : DriverState) (evs : List DriverEvent)
    (h : DriverInv s) : DriverInv (runDriver s evs) := by
  induction evs generalizing s with
  | nil => simpa [runDriver] using h
  | cons e tl ih =>
    rw [runDriver, List.foldl_cons]
    exact ih _ (driverInv_step s e h)

/-- Under the invariant, the stop branch leaves nothing scheduled: the
cancelled id is exactly the pending one. -/
theorem driverStop_host (s : DriverState) (h : DriverInv s) :
    (driverStop s).host = none := by
  unfold driverStop
  rcases hr : s.ref with _ | r
  · rcases h with h0 | h1
    · simp [h0]
    · rw [hr] at h1
      simp [h1]
  · by_cases hh : s.host = some r
    · simp [hh]
    · rcases h with h0 | h1
      · simp [hh, h0]
      · rw [hr] at h1
        exact absurd h1 hh

/-- With nothing scheduled and no restart, no event can fire a callback:
the host stays empty and the paint count is frozen. -/
theorem driver_frozen (s : DriverState) (evs : List DriverEvent)
    (hhost : s.host = none) (hno : DriverEvent.startReq ∉ evs) :
    (runDriver s evs).host = none ∧ (runDriver s evs).paints = s.paints := by
  induction evs generalizing s with
  | nil => exact ⟨hhost, rfl⟩
  | cons e tl ih =>
    have hne : e ≠ DriverEvent.startReq := fun he =>
      hno (he ▸ List.mem_cons_self e tl)
    have hstep : (driverStep s e).host = none ∧
        (driverStep s e).paints = s.paints := by
      cases e
      · unfold driverStep driverFire
        simp [hhost]
      · unfold driverStep driverStop
        rcases hr : s.ref with _ | r
        · simp [hr, hhost]
        · simp [hr, hhost]
      · exact absurd rfl hne
    rw [runDriver, List.foldl_cons]
    have htl := ih (driverStep s e) hstep.1
      (fun hm => hno (List.mem_cons_of_mem _ hm))
    exact ⟨htl.1, htl.2.trans hstep.2⟩

/-- C8: after the stop branch of the `isActive` effect runs, no further
frame callback fires and the paint count never changes again (for any
continuation that does not restart the driver) — including when a frame was
pending at the moment of the stop.  The pre-states are all states reachable
from mount. -/
theorem C8_stop_cancels (pre evs : List DriverEvent)
    (hno : DriverEvent.startReq ∉ evs) :
    (runDriver (driverStop (runDriver initDriver pre)) evs).paints
      = (runDriver initDriver pre).paints := by
  have hinv : DriverInv (runDriver initDriver pre) :=
    driverInv_run initDriver pre (Or.inl rfl)
  have hhost := driverStop_host _ hinv
  have hfrozen := driver_frozen _ evs hhost hno
  rw [hfrozen.2]
  unfold driverStop
  rcases hr : (runDriver initDriver pre).ref with _ | r <;> simp

/-- C8 witness: start then one painted frame; stopping with a frame pending
freezes the paint count across further host ticks. -/
theorem C8_stop_cancels_witness :
    DriverEvent.startReq ∉ [DriverEvent.fire, DriverEvent.fire]
  ∧ (runDriver (driverStop (runDriver initDriver
        [DriverEvent.startReq, DriverEvent.fire]))
      [DriverEvent.fire, DriverEvent.fire]).paints
    = (runDriver initDriver [DriverEvent.startReq, DriverEvent.fire]).paints :=
  ⟨by decide,
   C8_stop_cancels [DriverEvent.startReq, DriverEvent.fire]
     [DriverEvent.fire, DriverEvent.fire] (by decide)⟩

/-- C10 witness: an unguarded invocation advances the accumulator and keeps
the configuration. -/
theorem C10_draw_tick_witness :
    (drawTick true true true
      { time := 0, config := defaultConfig, snapshot := [] }).time
      = (0 : ℚ) + 0.015
  ∧ (drawTick true true true
      { time := 0, config := defaultConfig, snapshot := [] }).config
      = defaultConfig :=
  ⟨(C10_draw_tick true true true
      { time := 0, config := defaultConfig, snapshot := [] }).2.2.1 rfl rfl rfl,
   (C10_draw_tick true true true
      { time := 0, config := defaultConfig, snapshot := [] }).1⟩

end SonicCanvas
